import Mathlib

/-!
Verification development for the maths-explainer repository
(`src/gemini_api.py`, `src/main.py`).

The Python code is shallowly embedded: session state is passed
explicitly, external services (the Gemini generation endpoint, the file
upload/poll/delete endpoints, Streamlit secrets, environment variables,
and the JSON parser) are oracles supplied as parameters, and Python
exceptions are modelled with `Except`.  Python string operations are
re-implemented over `List Char` (one `Char` per code point, matching
Python's per-code-point semantics for `len`, slicing, `in`, `strip`,
`lower`, `startswith`, `endswith`, `isdigit`).  `str.strip`/`str.lower`
are modelled on the ASCII range, which covers every string the program
compares.
-/

namespace MathsExplainer

/-! ## Python string semantics over `List Char` -/

/-- Python whitespace for `str.strip` (ASCII range). -/
def pyIsSpace (c : Char) : Bool :=
  c = ' ' || c = '\t' || c = '\n' || c = '\r' || c = '\x0b' || c = '\x0c'

/-- `str.strip()`: drop leading and trailing whitespace. -/
def pyStrip (s : String) : String :=
  ⟨(((s.data.dropWhile pyIsSpace).reverse.dropWhile pyIsSpace).reverse)⟩

/-- `str.lower()` on the ASCII range. -/
def pyLowerChar (c : Char) : Char :=
  if 'A' ≤ c ∧ c ≤ 'Z' then Char.ofNat (c.toNat + 32) else c

/-- `str.lower()`. -/
def pyLower (s : String) : String := ⟨s.data.map pyLowerChar⟩

/-- `s.startswith(p)`. -/
def pyStartswith (s p : String) : Bool := p.data.isPrefixOf s.data

/-- `s.endswith(p)`. -/
def pyEndswith (s p : String) : Bool := p.data.isSuffixOf s.data

/-- `s.isdigit()`: non-empty and all digits (ASCII range). -/
def pyIsDigit (s : String) : Bool := !s.data.isEmpty && s.data.all Char.isDigit

/-- `c in s` for a single-character needle `c`. -/
def pyCharIn (c : Char) (s : String) : Bool := s.data.contains c

/-- Substring containment of `needle` in a character list (Python `in`). -/
def pySubIn (needle : List Char) : List Char → Bool
  | [] => needle.isEmpty
  | c :: rest => needle.isPrefixOf (c :: rest) || pySubIn needle rest

/-- `needle in hay` for strings (substring containment). -/
def pyStrIn (needle hay : String) : Bool := pySubIn needle.data hay.data

/-- Python slice `s[k:]` (per code point, like Lean chars). -/
def pyDrop (s : String) (k : Nat) : String := ⟨s.data.drop k⟩

/-- Python slice `s[:-k]`. -/
def pyDropRight (s : String) (k : Nat) : String := ⟨s.data.take (s.data.length - k)⟩

/-- `len(s)` (number of code points). -/
def pyLen (s : String) : Nat := s.data.length

/-! ## `gemini_api.py` — credential pool (`get_api_keys`, lines 7–34)

`st.secrets` is modelled as `Option` of a key/value list (`none` = the
`StreamlitAPIException` raised when no secrets file exists, which the
code catches and ignores); `os.getenv` as a function to `Option String`.
The Python `set` used for deduplication has an unspecified iteration
order, so the final list order is an oracle `setOrder`, constrained in
theorems to be a permutation of the inserted elements. -/

/-- Environment of `get_api_keys`: the secret store, the process
environment, and the iteration order of the Python `set`. -/
structure KeyEnv where
  secrets : Option (List (String × String))
  getenv : String → Option String
  setOrder : List String → List String

/-- `keys.add(x)` on a Python set, tracked as an insertion-ordered
duplicate-free list (membership is exactly the set's membership). -/
def setAdd (s : List String) (x : String) : List String :=
  if x ∈ s then s else s ++ [x]

/-- The values passed to `keys.add(...)` by the four conditional `add`
calls of `get_api_keys`, in program order: the two secrets slots add
unconditionally when the key is present (lines 25–26, skipped entirely
when accessing the secret store raises); the two environment slots are
truthiness-guarded, so empty strings are not added (lines 31–32). -/
def key_inserts (env : KeyEnv) : List String :=
  (match env.secrets with
   | none => []
   | some sec =>
     (match List.lookup "GEMINI_API_KEY_1" sec with | some v => [v] | none => []) ++
     (match List.lookup "GEMINI_API_KEY_2" sec with | some v => [v] | none => [])) ++
  (match env.getenv "GEMINI_API_KEY_1" with
   | some v => if v = "" then [] else [v]
   | none => []) ++
  (match env.getenv "GEMINI_API_KEY_2" with
   | some v => if v = "" then [] else [v]
   | none => [])

/-- The membership of the `keys` set after the four conditional `add`
calls, tracked in insertion order. -/
def key_set (env : KeyEnv) : List String := (key_inserts env).foldl setAdd []

/-- `get_api_keys` (lines 7–34): `[k for k in keys if k]` — iterate the
set in its (unspecified) order and keep the truthy (non-empty) keys. -/
def get_api_keys (env : KeyEnv) : List String :=
  (env.setOrder (key_set env)).filter (fun k => k ≠ "")

/-! ## `gemini_api.py` — `generate_with_failover` (lines 36–68)

One provider attempt (configure + model construction + `generate_content`)
is an oracle `provider : String → Outcome` giving, per credential, the
outcome of its single attempt.  `resp.text` may be `None`, hence
`Option String` in `success` (`resp.text or ""` maps `none` to `""`).
Each `GenResult` constructor corresponds to exactly one `return`
statement of the source; `render` gives the string actually returned.
The second component of the result is the list of credentials attempted,
in order (the trace of `genai.configure` calls). -/

/-- Outcome of one generation attempt with one credential. -/
inductive Outcome where
  | success (text : Option String)
  | resourceExhausted
  | otherError (msg : String)
deriving DecidableEq, Repr

/-- The five return points of `generate_with_failover`. -/
inductive GenResult where
  | noCredentials
  | text (s : String)
  | emptyResponse
  | unexpected (msg : String)
  | allRateLimited
deriving DecidableEq, Repr

/-- The strings returned at each return point (lines 44, 62, 66, 68). -/
def render : GenResult → String
  | .noCredentials => "ERROR: No API keys configured."
  | .text s => s
  | .emptyResponse => "ERROR: Empty response from model."
  | .unexpected m => "ERROR: An unexpected error occurred: " ++ m
  | .allRateLimited =>
      "ERROR: All API keys are currently rate-limited. Please wait and try again."

/-- The `for key in api_keys` loop (lines 47–68): returns the result and
the list of credentials attempted. -/
def failover_go (provider : String → Outcome) : List String → GenResult × List String
  | [] => (.allRateLimited, [])
  | k :: rest =>
    match provider k with
    | .success t =>
      let s := pyStrip (t.getD "")
      if s = "" then (.emptyResponse, [k]) else (.text s, [k])
    | .resourceExhausted =>
      let r := failover_go provider rest
      (r.1, k :: r.2)
    | .otherError m => (.unexpected m, [k])

/-- `generate_with_failover` (lines 36–68), over an already-loaded pool. -/
def generate_with_failover (provider : String → Outcome) (api_keys : List String) :
    GenResult × List String :=
  if api_keys = [] then (.noCredentials, []) else failover_go provider api_keys

/-- The caller-side success test of `main.py` lines 240 and 477:
`response and not response.startswith("ERROR:")`. -/
def caller_accepts (resp : String) : Bool :=
  !resp.data.isEmpty && !pyStartswith resp "ERROR:"

/-- The error kinds of the result (every constructor except `text`). -/
def isErrorKind : GenResult → Bool
  | .text _ => false
  | _ => true

/-! ## `main.py` — topic extraction (`extract_topics_from_syllabus`, lines 128–305)

The value produced by `json.loads` is a `JsonV`; the parse itself is an
oracle (`json.JSONDecodeError` is the `Except.error` case of the oracle
and is caught by the code).  Exceptions raised by the post-parse
processing — `TypeError` from `"topics" in data` / `data["topics"]` on
non-container values, `AttributeError` from `.strip()` on a non-string
topic — are NOT caught by the code (the `except` clause at line 300 only
names `json.JSONDecodeError`); they are the `Except.error` results of the
processing functions below.  JSON numbers are modelled as integers (no
claim touches a numeric rendering). -/

/-- Values produced by `json.loads`. -/
inductive JsonV where
  | str (s : String)
  | num (n : Int)
  | bool (b : Bool)
  | null
  | arr (xs : List JsonV)
  | obj (fields : List (String × JsonV))

/-- A single-quote character, as Python `repr` uses around strings. -/
def sq : String := String.singleton (Char.ofNat 39)

mutual

/-- Python `repr` of a JSON value (string escaping not modelled; no
claim evaluates it on strings needing escapes). -/
def pyRepr : JsonV → String
  | .str s => sq ++ s ++ sq
  | .num n => toString n
  | .bool b => if b then "True" else "False"
  | .null => "None"
  | .arr xs => "[" ++ pyReprList xs ++ "]"
  | .obj fs => "\x7b" ++ pyReprObj fs ++ "\x7d"

/-- Comma-separated `repr`s of list elements. -/
def pyReprList : List JsonV → String
  | [] => ""
  | [x] => pyRepr x
  | x :: xs => pyRepr x ++ ", " ++ pyReprList xs

/-- Comma-separated `repr`s of dict items. -/
def pyReprObj : List (String × JsonV) → String
  | [] => ""
  | [p] => sq ++ p.1 ++ sq ++ ": " ++ pyRepr p.2
  | p :: ps => sq ++ p.1 ++ sq ++ ": " ++ pyRepr p.2 ++ ", " ++ pyReprObj ps

end

/-- Python `str` of a JSON value (`str` = identity on strings, `repr`
on containers). -/
def pyStr : JsonV → String
  | .str s => s
  | v => pyRepr v

/-- `"topics" in data` — key membership for dicts, element membership
for lists, substring test for strings, `TypeError` otherwise. -/
def py_contains_topics : JsonV → Except String Bool
  | .obj fs => .ok (fs.any (fun p => p.1 = "topics"))
  | .arr xs => .ok (xs.any (fun x => match x with | .str s => s = "topics" | _ => false))
  | .str s => .ok (pyStrIn "topics" s)
  | _ => .error "TypeError: argument is not iterable"

/-- `data["topics"]` — dict lookup; `TypeError` on any non-dict (only
reached when the membership test succeeded). -/
def py_index_topics : JsonV → Except String JsonV
  | .obj fs =>
    match List.lookup "topics" fs with
    | some v => .ok v
    | none => .error "KeyError: topics"
  | _ => .error "TypeError: indices must be integers"

/-- The topic-name noise filter (lines 267–270): skip names that start
with "page" (case-insensitively), are all digits, contain `=`, or are
shorter than 3 characters. -/
def topic_skip (name : String) : Bool :=
  pyStartswith (pyLower name) "page" || pyIsDigit name ||
    pyCharIn '=' name || pyLen name < 3

/-- The subtopic filter (lines 279–282): keep entries that are not all
digits, contain no `=`, have length ≥ 3, and do not start with "page". -/
def subtopic_keep (s : String) : Bool :=
  !pyIsDigit s && !pyCharIn '=' s && decide (3 ≤ pyLen s) &&
    !pyStartswith (pyLower s) "page"

/-- Processing of one element of `data["topics"]` (lines 261–288):
`none` = skipped, `some` = the cleaned (topic, subtopics) pair,
`error` = the uncaught `AttributeError` from `.strip()` on a non-string
topic value. -/
def clean_topic_item (item : JsonV) : Except String (Option (String × List String)) :=
  match item with
  | .obj fs =>
    match List.lookup "topic" fs with
    | none => .ok none
    | some v =>
      match v with
      | .str s =>
        let name := pyStrip s
        if topic_skip name then .ok none
        else
          let subs :=
            match List.lookup "subtopics" fs with
            | some (.arr xs) => (xs.map (fun x => pyStrip (pyStr x))).filter subtopic_keep
            | _ => []
          .ok (some (name, subs))
      | _ => .error "AttributeError: strip on a non-string topic"
  | _ => .ok none

/-- The cleaned-topics accumulation loop over `data["topics"]`. -/
def clean_topics_list : List JsonV → Except String (List (String × List String))
  | [] => .ok []
  | it :: rest => do
    let h ← clean_topic_item it
    let t ← clean_topics_list rest
    match h with
    | some p => pure (p :: t)
    | none => pure t

/-- Post-parse processing (lines 258–298): the stored
`extracted_topics` value (`none` when the structure is missing, the
field is not a list, or every topic was filtered out; `some` the cleaned
list otherwise); an `error` is an exception escaping the function. -/
def process_topics (data : JsonV) : Except String (Option (List (String × List String))) := do
  let hasT ← py_contains_topics data
  if hasT then
    let tv ← py_index_topics data
    match tv with
    | .arr items =>
      let cleaned ← clean_topics_list items
      if cleaned = [] then pure none else pure (some cleaned)
    | _ => pure none
  else
    pure none

/-- The code-fence cleanup of the raw response (lines 243–253). -/
def strip_json_str (response : String) : String :=
  let j := pyStrip response
  let j := if pyStartswith j "```json" then pyDrop j 7 else j
  let j := if pyStartswith j "```" then pyDrop j 3 else j
  let j := if pyEndswith j "```" then pyDropRight j 3 else j
  pyStrip j

/-- `extract_topics_from_syllabus` (lines 128–305) after the generation
call resolved to `response`, with the JSON parser as an oracle.  The
value is the stored `st.session_state.extracted_topics`; `error` is an
exception escaping into the caller (the upload flow). -/
def extract_topics_from_syllabus (parse : String → Except String JsonV)
    (response : String) : Except String (Option (List (String × List String))) :=
  if caller_accepts response then
    match parse (strip_json_str response) with
    | .error _ => .ok none
    | .ok data => process_topics data
  else
    .ok none

/-! ## `main.py` — session state and the chat input handler (lines 51–62, 344–481)

Session state is the record of `st.session_state` fields the program
uses; `limit_reached_message` is the flag set at line 451 (absent =
`false`).  A chat turn is a function of the submitted prompt and the
current state; the generation network is the same `provider` oracle as
in `generate_with_failover` (the prompt and system instruction are
absorbed into the oracle, since this file never inspects them).  The
returned trace is the list of credentials attempted during the turn. -/

/-- The `st.session_state` fields used by the program. -/
structure SessionState where
  chat_history : List (String × String)
  file_search_store_name : Option String
  file_name : Option String
  selected_instructions : List String
  extracted_topics : Option (List (String × List String))
  limit_unlocked : Bool
  limit_reached_message : Bool
deriving DecidableEq, Repr

/-- `user_message_count` (line 348): number of history entries whose
role is `"user"`. -/
def user_message_count (h : List (String × String)) : Nat :=
  (h.filter (fun m => m.1 = "user")).length

/-- What the chat input handler did with a submitted prompt. -/
inductive ChatEvent where
  | rejectedLimit
  | unlockActivated
  | needUpload
  | answered (resp : String)
  | generationError (resp : String)
deriving DecidableEq, Repr

/-- The assistant text appended by the easter-egg branch (line 458). -/
def unlock_message : String :=
  "🔓 **Unlimited mode activated!** You can now ask unlimited questions. Please upload your syllabus to get started."

/-- The chat input handler (lines 444–481) for one submitted prompt.
The quota gate (line 445) is evaluated first: when
`user_message_count ≥ 3` and the unlock flag is unset, the input is
disabled and no branch of the handler runs.  Otherwise the branches are,
in order: the easter egg (sentinel prompt AND no indexed document), the
missing-document error, and the regular generation path (which appends
the user prompt, calls `generate_with_failover` through
`generate_rag_response`, and appends the response only when the caller
test accepts it; otherwise the error string is only displayed). -/
def chat_turn (provider : String → Outcome) (api_keys : List String)
    (s : SessionState) (prompt : String) : SessionState × ChatEvent × List String :=
  if 3 ≤ user_message_count s.chat_history ∧ ¬ s.limit_unlocked then
    ({ s with limit_reached_message := true }, .rejectedLimit, [])
  else if pyLower (pyStrip prompt) = "himanshu" ∧ s.file_search_store_name = none then
    ({ s with
        limit_unlocked := true,
        chat_history := s.chat_history ++ [("user", prompt), ("assistant", unlock_message)] },
      .unlockActivated, [])
  else if s.file_search_store_name = none then
    (s, .needUpload, [])
  else
    let s1 := { s with chat_history := s.chat_history ++ [("user", prompt)] }
    let r := generate_with_failover provider api_keys
    let resp := render r.1
    if caller_accepts resp then
      ({ s1 with chat_history := s1.chat_history ++ [("assistant", resp)] },
        .answered resp, r.2)
    else
      (s1, .generationError resp, r.2)

/-! ## `main.py` — store cleanup and the upload flow (lines 68–126)

External file-service effects are an `UploadEnv` oracle: whether a
`genai.delete_file` call succeeds per handle, whether the temp-file
write succeeds, the result of `genai.upload_file`, the state observed at
the i-th poll of the file, and the outcome of the best-effort topic
extraction (whose `error` case is an exception escaping
`extract_topics_from_syllabus` into the upload `try` block).  The event
trace records the external calls issued, in order. -/

/-- External calls issued by the upload flow. -/
inductive UpEvent where
  | deleteFile (handle : String)
  | uploadFile (display : String)
  | getFile (handle : String)
deriving DecidableEq, Repr

/-- Oracle for the external file service and the extraction step.
`initState` is the state carried by the object `upload_file` returned
(line 97; reading it at line 103 is an attribute access and cannot
raise); `getFileRes i` is the result of the i-th `get_file` call inside
the polling loop (line 105), which can raise — the `error` case is an
exception landing in the upload `except` clause. -/
structure UploadEnv where
  deleteOk : String → Bool
  tempWriteOk : Bool
  uploadRes : Except String String
  initState : String
  getFileRes : Nat → Except String String
  extractRes : Except String (Option (List (String × List String)))

/-- `clean_up_store` (lines 68–81): when a store handle is held, issue
the delete; on success clear the five session fields, on an exception
only warn — the fields keep their values. -/
def clean_up_store (env : UploadEnv) (s : SessionState) : SessionState × List UpEvent :=
  match s.file_search_store_name with
  | none => (s, [])
  | some h =>
    if env.deleteOk h then
      ({ s with
          file_search_store_name := none,
          file_name := none,
          chat_history := [],
          limit_unlocked := false,
          extracted_topics := none },
        [UpEvent.deleteFile h])
    else
      (s, [UpEvent.deleteFile h])

/-- How the polling loop ended. -/
inductive PollResult where
  | done (stname : String)
  | raised (msg : String)
  | fuelOut
deriving DecidableEq, Repr

/-- The polling loop (lines 103–105): while the last observed state is
`"PROCESSING"`, issue `get_file`; the call may raise (`raised`, the
exception escaping into the upload `except` clause) or return the next
observed state.  The extra fuel argument only bounds the unrolling
(`fuelOut` = still processing when the fuel ran out, a modelling
artifact for a loop the code would still be inside). -/
def poll_loop (env : UploadEnv) (h : String) : String → Nat → Nat → PollResult × List UpEvent
  | cur, i, fuel =>
    if cur = "PROCESSING" then
      match fuel with
      | 0 => (.fuelOut, [])
      | Nat.succ f =>
        match env.getFileRes i with
        | .error m => (.raised m, [UpEvent.getFile h])
        | .ok st2 =>
          let r := poll_loop env h st2 (i + 1) f
          (r.1, UpEvent.getFile h :: r.2)
    else
      (.done cur, [])

/-- How `upload_syllabus_to_rag` exited. -/
inductive UploadOutcome where
  | indexed
  | stateError (stname : String)
  | caught (msg : String)
  | tempError
  | stillPolling
deriving DecidableEq, Repr

/-- The assistant greeting appended at line 113. -/
def success_greeting (name : String) : String :=
  "I have successfully indexed your syllabus file: **" ++ name ++
    "**. What math concept from this document can I explain to you?"

/-- `upload_syllabus_to_rag` (lines 84–125).  Step order follows the
source: initial `clean_up_store`; temp-file write (before the `try`, so
its exception propagates with no further cleanup); upload (on success
the handle and display name are committed to the session at lines
98–99, before polling); polling, whose `get_file` calls can raise; on
`"ACTIVE"` the extraction runs, then the history is reset to the single
greeting; on any other final state, or on an exception inside the `try`
(upload failure, a raising `get_file`, or an exception escaping
extraction), an error is surfaced and `clean_up_store` runs again.  The
temp-file removal in `finally` has no session effect and is not
traced. -/
def upload_syllabus_to_rag (env : UploadEnv) (fuel : Nat) (uploaded_name : String)
    (s : SessionState) : SessionState × UploadOutcome × List UpEvent :=
  let c0 := clean_up_store env s
  let s0 := c0.1
  let ev0 := c0.2
  if env.tempWriteOk then
    match env.uploadRes with
    | .error m =>
      let c2 := clean_up_store env s0
      (c2.1, .caught m, ev0 ++ [UpEvent.uploadFile uploaded_name] ++ c2.2)
    | .ok handle =>
      let s1 := { s0 with
        file_search_store_name := some handle, file_name := some uploaded_name }
      let p := poll_loop env handle env.initState 0 fuel
      match p.1 with
      | .fuelOut => (s1, .stillPolling, ev0 ++ [UpEvent.uploadFile uploaded_name] ++ p.2)
      | .raised m =>
        let c4 := clean_up_store env s1
        (c4.1, .caught m, ev0 ++ [UpEvent.uploadFile uploaded_name] ++ p.2 ++ c4.2)
      | .done stname =>
        if stname = "ACTIVE" then
          match env.extractRes with
          | .ok topics =>
            ({ s1 with
                extracted_topics := topics,
                chat_history := [("assistant", success_greeting uploaded_name)] },
              .indexed, ev0 ++ [UpEvent.uploadFile uploaded_name] ++ p.2)
          | .error m =>
            let c3 := clean_up_store env s1
            (c3.1, .caught m, ev0 ++ [UpEvent.uploadFile uploaded_name] ++ p.2 ++ c3.2)
        else
          let c3 := clean_up_store env s1
          (c3.1, .stateError stname, ev0 ++ [UpEvent.uploadFile uploaded_name] ++ p.2 ++ c3.2)
  else
    (s0, .tempError, ev0)

/-! ## Helper lemmas on the failover loop -/

/-- A block of rate-limited credentials at the front of the pool is
consumed by the loop: the result is the result on the remainder, and the
block is prepended to the attempt trace. -/
theorem failover_go_rl_block (provider : String → Outcome) (rest : List String) :
    ∀ tried : List String, (∀ j ∈ tried, provider j = Outcome.resourceExhausted) →
      failover_go provider (tried ++ rest) =
        ((failover_go provider rest).1, tried ++ (failover_go provider rest).2)
  | [], _ => by simp
  | k :: ks, h => by
    have hk : provider k = Outcome.resourceExhausted := h k (by simp)
    have ih := failover_go_rl_block provider rest ks (fun j hj => h j (by simp [hj]))
    simp [failover_go, hk, ih]

/-- The loop body never produces the `noCredentials` result. -/
theorem failover_go_ne_noCredentials (provider : String → Outcome) :
    ∀ api_keys : List String,
      (failover_go provider api_keys).1 ≠ GenResult.noCredentials
  | [] => by simp [failover_go]
  | k :: rest => by
    cases hk : provider k with
    | success t =>
      simp only [failover_go, hk]
      split <;> simp
    | resourceExhausted =>
      simpa [failover_go, hk] using failover_go_ne_noCredentials provider rest
    | otherError m => simp [failover_go, hk]

/-- A `text` result always carries a non-empty string (the empty case
returns `emptyResponse` instead). -/
theorem failover_go_text_ne_empty (provider : String → Outcome) :
    ∀ (api_keys : List String) (s : String),
      (failover_go provider api_keys).1 = GenResult.text s → s ≠ ""
  | [], s => by simp [failover_go]
  | k :: rest, s => by
    cases hk : provider k with
    | success t =>
      simp only [failover_go, hk]
      split
      · simp
      · next hne => intro h; cases h; simpa using hne
    | resourceExhausted =>
      simpa [failover_go, hk] using failover_go_text_ne_empty provider rest s
    | otherError m => simp [failover_go, hk]

/-- A string with the `"ERROR:"` prefix is not empty. -/
theorem startswith_error_ne_empty (s : String) (h : pyStartswith s "ERROR:" = true) :
    s ≠ "" := by
  intro he
  rw [he] at h
  exact absurd h (by decide)

/-- Every error-kind result renders with the `"ERROR:"` prefix. -/
theorem render_error_startswith (r : GenResult) (h : isErrorKind r = true) :
    pyStartswith (render r) "ERROR:" = true := by
  cases r with
  | text s => simp [isErrorKind] at h
  | noCredentials => rfl
  | emptyResponse => rfl
  | unexpected m => rfl
  | allRateLimited => rfl

/-! ## Claim C1 — failover order, rate-limit rotation, `AllRateLimited` -/

/-- C1: for every pool of size N ≥ 1 and every assignment of provider
outcomes, credentials are tried in pool order, one attempt each: a pool
whose outcomes are all quota-exceeded attempts every credential and
returns `AllRateLimited`; a success with non-empty (trimmed) text at
credential `kk`, after a block of quota-exceeded credentials, returns
the trimmed text, with exactly the block and `kk` attempted and no later
credential touched. -/
theorem generate_failover_rotation (provider : String → Outcome) :
    (∀ api_keys : List String, api_keys ≠ [] →
      (∀ k ∈ api_keys, provider k = Outcome.resourceExhausted) →
      generate_with_failover provider api_keys = (GenResult.allRateLimited, api_keys)) ∧
    (∀ (tried rest : List String) (kk : String) (t : Option String),
      (∀ j ∈ tried, provider j = Outcome.resourceExhausted) →
      provider kk = Outcome.success t →
      pyStrip (t.getD "") ≠ "" →
      generate_with_failover provider (tried ++ kk :: rest) =
        (GenResult.text (pyStrip (t.getD "")), tried ++ [kk])) := by
  constructor
  · intro api_keys hne hall
    have h := failover_go_rl_block provider [] api_keys hall
    simp only [List.append_nil] at h
    simp [generate_with_failover, hne, h, failover_go]
  · intro tried rest kk t hrl hkk hne
    have h := failover_go_rl_block provider (kk :: rest) tried hrl
    have hhead : failover_go provider (kk :: rest) =
        (GenResult.text (pyStrip (t.getD "")), [kk]) := by
      simp [failover_go, hkk, hne]
    rw [hhead] at h
    simp [generate_with_failover, h]

/-- Witness for C1: a pool of three credentials where the first two are
rate-limited and the third succeeds with `"  trimmed  "` returns
`text "trimmed"` having attempted exactly the three credentials. -/
theorem generate_failover_rotation_witness :
    (∀ j ∈ ["k1", "k2"],
      (fun k => if k = "k3" then Outcome.success (some "  trimmed  ")
        else Outcome.resourceExhausted) j = Outcome.resourceExhausted) ∧
    generate_with_failover
        (fun k => if k = "k3" then Outcome.success (some "  trimmed  ")
          else Outcome.resourceExhausted)
        (["k1", "k2"] ++ "k3" :: ["k4"]) =
      (GenResult.text "trimmed", ["k1", "k2", "k3"]) := by
  refine ⟨by decide, ?_⟩
  have h := (generate_failover_rotation
    (fun k => if k = "k3" then Outcome.success (some "  trimmed  ")
      else Outcome.resourceExhausted)).2
    ["k1", "k2"] ["k4"] "k3" (some "  trimmed  ") (by decide) (by decide) (by decide)
  simpa using h

/-! ## Claim C2 — error kinds exactly under their conditions -/

/-- C2: `noCredentials` is returned exactly for the empty pool, with no
attempt made; a success whose trimmed text is empty yields
`emptyResponse` with no later credential attempted; a non-quota error
yields `unexpected` with no later credential attempted, whatever the
later credentials would have returned. -/
theorem generate_failover_error_taxonomy (provider : String → Outcome) :
    (∀ api_keys : List String,
      ((generate_with_failover provider api_keys).1 = GenResult.noCredentials ↔
        api_keys = []) ∧
      (api_keys = [] → (generate_with_failover provider api_keys).2 = [])) ∧
    (∀ (tried rest : List String) (kk : String) (t : Option String),
      (∀ j ∈ tried, provider j = Outcome.resourceExhausted) →
      provider kk = Outcome.success t →
      pyStrip (t.getD "") = "" →
      generate_with_failover provider (tried ++ kk :: rest) =
        (GenResult.emptyResponse, tried ++ [kk])) ∧
    (∀ (tried rest : List String) (kk : String) (m : String),
      (∀ j ∈ tried, provider j = Outcome.resourceExhausted) →
      provider kk = Outcome.otherError m →
      generate_with_failover provider (tried ++ kk :: rest) =
        (GenResult.unexpected m, tried ++ [kk])) := by
  refine ⟨?_, ?_, ?_⟩
  · intro api_keys
    constructor
    · constructor
      · intro h
        by_contra hne
        rw [generate_with_failover, if_neg hne] at h
        exact failover_go_ne_noCredentials provider api_keys h
      · intro h
        simp [generate_with_failover, h]
    · intro h
      simp [generate_with_failover, h]
  · intro tried rest kk t hrl hkk hempty
    have h := failover_go_rl_block provider (kk :: rest) tried hrl
    have hhead : failover_go provider (kk :: rest) = (GenResult.emptyResponse, [kk]) := by
      simp [failover_go, hkk, hempty]
    rw [hhead] at h
    simp [generate_with_failover, h]
  · intro tried rest kk m hrl hkk
    have h := failover_go_rl_block provider (kk :: rest) tried hrl
    have hhead : failover_go provider (kk :: rest) = (GenResult.unexpected m, [kk]) := by
      simp [failover_go, hkk]
    rw [hhead] at h
    simp [generate_with_failover, h]

/-- Witness for C2: the empty pool yields `noCredentials` with no
attempt; a whitespace-only success on credential `"k1"` yields
`emptyResponse` without touching `"k2"` — even though `"k2"` would have
succeeded; a non-quota error on `"k1"` likewise yields `unexpected`. -/
theorem generate_failover_error_taxonomy_witness :
    ((generate_with_failover (fun _ => Outcome.otherError "boom") []).1 =
        GenResult.noCredentials ↔ ([] : List String) = []) ∧
    generate_with_failover
        (fun k => if k = "k1" then Outcome.success (some "   ") else Outcome.success (some "fine"))
        ([] ++ "k1" :: ["k2"]) = (GenResult.emptyResponse, [] ++ ["k1"]) ∧
    generate_with_failover
        (fun k => if k = "k1" then Outcome.otherError "boom" else Outcome.success (some "fine"))
        ([] ++ "k1" :: ["k2"]) = (GenResult.unexpected "boom", [] ++ ["k1"]) := by
  refine ⟨((generate_failover_error_taxonomy (fun _ => Outcome.otherError "boom")).1 []).1, ?_, ?_⟩
  · exact (generate_failover_error_taxonomy _).2.1 [] ["k2"] "k1" (some "   ")
      (by decide) (by decide) (by decide)
  · exact (generate_failover_error_taxonomy _).2.2 [] ["k2"] "k1" "boom"
      (by decide) (by decide)

/-! ## Claim C10 — success/error tagging is the `"ERROR:"` string prefix -/

/-- C10: every result of `generate_with_failover` renders to a non-empty
string; every error-kind result renders with the literal `"ERROR:"`
prefix; the caller-side test of `main.py` (`response and not
response.startswith("ERROR:")`) reduces to the prefix test alone; and a
genuine model response that itself begins with `"ERROR:"` is returned as
a success yet carries the prefix, so the prefix test cannot distinguish
it from a failure. -/
theorem error_string_tagging (provider : String → Outcome) (api_keys : List String) :
    render (generate_with_failover provider api_keys).1 ≠ "" ∧
    (isErrorKind (generate_with_failover provider api_keys).1 = true →
      pyStartswith (render (generate_with_failover provider api_keys).1) "ERROR:" = true) ∧
    caller_accepts (render (generate_with_failover provider api_keys).1) =
      !pyStartswith (render (generate_with_failover provider api_keys).1) "ERROR:" ∧
    (generate_with_failover (fun _ => Outcome.success (some "ERROR: a genuine answer")) ["k1"] =
        (GenResult.text "ERROR: a genuine answer", ["k1"]) ∧
      isErrorKind (GenResult.text "ERROR: a genuine answer") = false ∧
      pyStartswith (render (GenResult.text "ERROR: a genuine answer")) "ERROR:" = true) := by
  have hne : render (generate_with_failover provider api_keys).1 ≠ "" := by
    cases hr : (generate_with_failover provider api_keys).1 with
    | text s =>
      have hs : s ≠ "" := by
        by_cases hk : api_keys = []
        · rw [generate_with_failover, if_pos hk] at hr; cases hr
        · rw [generate_with_failover, if_neg hk] at hr
          exact failover_go_text_ne_empty provider api_keys s hr
      simpa [render] using hs
    | noCredentials => exact startswith_error_ne_empty _ (render_error_startswith _ rfl)
    | emptyResponse => exact startswith_error_ne_empty _ (render_error_startswith _ rfl)
    | unexpected m => exact startswith_error_ne_empty _ (render_error_startswith _ rfl)
    | allRateLimited => exact startswith_error_ne_empty _ (render_error_startswith _ rfl)
  refine ⟨hne, fun h => render_error_startswith _ h, ?_, by decide, rfl, rfl⟩
  · have hdata : (render (generate_with_failover provider api_keys).1).data ≠ [] := by
      intro h
      exact hne (by cases hrr : render (generate_with_failover provider api_keys).1 with
        | mk d => rw [hrr] at h; cases h; rfl)
    rw [caller_accepts]
    cases hd : (render (generate_with_failover provider api_keys).1).data with
    | nil => exact absurd hd hdata
    | cons c cs => simp [List.isEmpty, hd]

/-- Witness for C10, at a provider whose single credential fails with a
non-quota error: the rendered result is non-empty and carries the
`"ERROR:"` prefix. -/
theorem error_string_tagging_witness :
    render (generate_with_failover (fun _ => Outcome.otherError "boom") ["k1"]).1 ≠ "" ∧
    isErrorKind (generate_with_failover (fun _ => Outcome.otherError "boom") ["k1"]).1 = true ∧
    pyStartswith
      (render (generate_with_failover (fun _ => Outcome.otherError "boom") ["k1"]).1)
      "ERROR:" = true := by
  refine ⟨(error_string_tagging (fun _ => Outcome.otherError "boom") ["k1"]).1, by decide, ?_⟩
  exact (error_string_tagging (fun _ => Outcome.otherError "boom") ["k1"]).2.1 (by decide)

/-! ## Claim C7 — the quota gate blocks prompts without calling generation -/

/-- C7: whenever the user-message count has reached 3 and the unlock
flag is unset, the input path rejects the prompt: the history and all
other fields are unchanged (only the one-time warning flag is set), and
no credential is attempted, i.e. the generation service is never
called. -/
theorem quota_blocks_generation (provider : String → Outcome) (api_keys : List String)
    (s : SessionState) (prompt : String)
    (h3 : 3 ≤ user_message_count s.chat_history)
    (hu : s.limit_unlocked = false) :
    chat_turn provider api_keys s prompt =
      ({ s with limit_reached_message := true }, ChatEvent.rejectedLimit, []) := by
  rw [chat_turn, if_pos ⟨h3, by simp [hu]⟩]

/-- Witness for C7: a locked session with three user messages rejects a
fourth prompt without attempting any credential. -/
theorem quota_blocks_generation_witness :
    3 ≤ user_message_count
      (SessionState.mk [("user", "q1"), ("user", "q2"), ("user", "q3")]
        (some "files/f1") (some "f1.pdf") [] none false false).chat_history ∧
    chat_turn (fun _ => Outcome.success (some "fine")) ["k1"]
        (SessionState.mk [("user", "q1"), ("user", "q2"), ("user", "q3")]
          (some "files/f1") (some "f1.pdf") [] none false false) "one more?" =
      (SessionState.mk [("user", "q1"), ("user", "q2"), ("user", "q3")]
        (some "files/f1") (some "f1.pdf") [] none false true,
        ChatEvent.rejectedLimit, []) :=
  ⟨by decide,
    quota_blocks_generation (fun _ => Outcome.success (some "fine")) ["k1"]
      (SessionState.mk [("user", "q1"), ("user", "q2"), ("user", "q3")]
        (some "files/f1") (some "f1.pdf") [] none false false) "one more?" (by decide) rfl⟩

/-! ## Claim C3 — the "himanshu" sentinel

The claim asserts the sentinel is recognised in every session state,
before quota enforcement and before the live-document requirement.  In
the code (line 455) the sentinel test sits inside the `else` branch of
the quota gate (line 445) and additionally requires that NO document is
indexed, and the sentinel prompt IS appended to the history as a user
message; the claim fails on a locked session at the quota. -/

/-- A locked session that has reached the quota: three user messages,
no document, unlock flag unset. -/
def c3_state : SessionState :=
  SessionState.mk
    [("user", "q1"), ("assistant", "a1"), ("user", "q2"), ("assistant", "a2"), ("user", "q3")]
    none none [] none false false

/-- Counterexample to C3: in a locked session at the quota, the input
`"Himanshu"` is rejected by the quota gate — the unlock flag stays
`false` and the sentinel is not recognised, although the claim asserts
it is recognised before quota enforcement in every session state. -/
theorem sentinel_quota_counterexample :
    pyLower (pyStrip "Himanshu") = "himanshu" ∧
    (chat_turn (fun _ => Outcome.resourceExhausted) [] c3_state "Himanshu").2.1 =
      ChatEvent.rejectedLimit ∧
    (chat_turn (fun _ => Outcome.resourceExhausted) [] c3_state "Himanshu").1.limit_unlocked =
      false := by
  refine ⟨rfl, rfl, rfl⟩

/-- C3 (amended): when the quota gate does not fire (count below 3 or
already unlocked) and no document is indexed, a prompt whose trimmed
lower-case form is `"himanshu"` sets the unlock flag, is answered by the
fixed unlock message with no generation attempt, and is appended to the
history as a user message — so the user-message count increases by one,
though the quota no longer applies once unlocked.  With a live document,
or at the quota while locked, the sentinel is not special-cased. -/
theorem sentinel_unlock_amended (provider : String → Outcome) (api_keys : List String)
    (s : SessionState) (prompt : String)
    (hq : ¬ (3 ≤ user_message_count s.chat_history ∧ ¬ s.limit_unlocked))
    (hs : s.file_search_store_name = none)
    (hp : pyLower (pyStrip prompt) = "himanshu") :
    chat_turn provider api_keys s prompt =
      ({ s with
          limit_unlocked := true,
          chat_history := s.chat_history ++
            [("user", prompt), ("assistant", unlock_message)] },
        ChatEvent.unlockActivated, []) ∧
    user_message_count (chat_turn provider api_keys s prompt).1.chat_history =
      user_message_count s.chat_history + 1 := by
  have heq : chat_turn provider api_keys s prompt =
      ({ s with
          limit_unlocked := true,
          chat_history := s.chat_history ++
            [("user", prompt), ("assistant", unlock_message)] },
        ChatEvent.unlockActivated, []) := by
    rw [chat_turn, if_neg hq, if_pos ⟨hp, hs⟩]
  refine ⟨heq, ?_⟩
  rw [heq]
  simp [user_message_count, List.filter_append]

/-- Witness for C3 (amended): in a fresh locked session with no
document, `" HIMANSHU "` unlocks the session, attempts no credential,
and raises the user-message count from 0 to 1. -/
theorem sentinel_unlock_amended_witness :
    ¬ (3 ≤ user_message_count (SessionState.mk [] none none [] none false false).chat_history ∧
        ¬ (SessionState.mk [] none none [] none false false).limit_unlocked) ∧
    pyLower (pyStrip " HIMANSHU ") = "himanshu" ∧
    chat_turn (fun _ => Outcome.resourceExhausted) ["k1"]
        (SessionState.mk [] none none [] none false false) " HIMANSHU " =
      (SessionState.mk [("user", " HIMANSHU "), ("assistant", unlock_message)]
        none none [] none true false,
        ChatEvent.unlockActivated, []) := by
  refine ⟨by decide, rfl, ?_⟩
  have h := (sentinel_unlock_amended (fun _ => Outcome.resourceExhausted) ["k1"]
    (SessionState.mk [] none none [] none false false) " HIMANSHU "
    (by decide) rfl rfl).1
  simpa using h

/-! ## Claim C8 — what a chat turn appends to the history

The claim asserts that after the generation call resolves, the user
prompt and the result — or, on failure, the error text — are appended to
the history.  In the code (lines 477–481) the error text is only
displayed (`st.error`) and never appended: on a failed call the history
gains the user prompt alone. -/

/-- A session with a live indexed document and empty history. -/
def c8_state : SessionState :=
  SessionState.mk [] (some "files/f1") (some "f1.pdf") [] none false false

/-- Counterexample to C8: with a live document and a provider failing
with a non-quota error, the turn ends with the history holding only the
user prompt — the error text is reported as a `generationError` event
(displayed to the user) but is NOT appended to the history, contrary to
the claim. -/
theorem chat_error_text_counterexample :
    (chat_turn (fun _ => Outcome.otherError "boom") ["k1"] c8_state
        "What is a matrix?").1.chat_history = [("user", "What is a matrix?")] ∧
    (chat_turn (fun _ => Outcome.otherError "boom") ["k1"] c8_state
        "What is a matrix?").2.1 =
      ChatEvent.generationError "ERROR: An unexpected error occurred: boom" := by
  refine ⟨rfl, rfl⟩

/-- C8 (amended): on a chat turn with a live indexed document that
passes the quota gate, the user prompt is appended to the history; when
the caller test accepts the generation result, the result is appended
after it, in that order; when the call fails, the turn ends in a
`generationError` event carrying the rendered error text — the error is
surfaced as displayed assistant-side text (never thrown: `chat_turn` is
total), but it is not appended to the history. -/
theorem chat_history_append_amended (provider : String → Outcome) (api_keys : List String)
    (s : SessionState) (prompt : String) (f : String)
    (hq : ¬ (3 ≤ user_message_count s.chat_history ∧ ¬ s.limit_unlocked))
    (hs : s.file_search_store_name = some f) :
    (caller_accepts (render (generate_with_failover provider api_keys).1) = true →
      chat_turn provider api_keys s prompt =
        ({ s with chat_history := s.chat_history ++
            [("user", prompt),
              ("assistant", render (generate_with_failover provider api_keys).1)] },
          ChatEvent.answered (render (generate_with_failover provider api_keys).1),
          (generate_with_failover provider api_keys).2)) ∧
    (caller_accepts (render (generate_with_failover provider api_keys).1) = false →
      chat_turn provider api_keys s prompt =
        ({ s with chat_history := s.chat_history ++ [("user", prompt)] },
          ChatEvent.generationError (render (generate_with_failover provider api_keys).1),
          (generate_with_failover provider api_keys).2)) := by
  constructor
  · intro hacc
    rw [chat_turn, if_neg hq, if_neg (by simp [hs]), if_neg (by simp [hs])]
    simp [hacc]
  · intro hrej
    rw [chat_turn, if_neg hq, if_neg (by simp [hs]), if_neg (by simp [hs])]
    simp [hrej]

/-- Witness for C8 (amended): a successful turn appends the user prompt
and then the trimmed response; a failing turn appends only the prompt. -/
theorem chat_history_append_amended_witness :
    chat_turn (fun _ => Outcome.success (some " A matrix is a grid. ")) ["k1"]
        (SessionState.mk [] (some "files/w8") (some "w8.pdf") [] none false false)
        "What is a matrix?" =
      (SessionState.mk
        [("user", "What is a matrix?"), ("assistant", "A matrix is a grid.")]
        (some "files/w8") (some "w8.pdf") [] none false false,
        ChatEvent.answered "A matrix is a grid.", ["k1"]) := by
  have h := (chat_history_append_amended (fun _ => Outcome.success (some " A matrix is a grid. "))
    ["k1"] (SessionState.mk [] (some "files/w8") (some "w8.pdf") [] none false false)
    "What is a matrix?" "files/w8" (by decide) rfl).1 (by decide)
  simpa using h

/-! ## Claim C4 — cleanup on upload failure paths

The claim asserts that on every failure path the partially created
handle is released and the session document fields are cleared, so no
document stays live.  `clean_up_store` (lines 68–81) clears the fields
only when the `delete_file` call itself succeeds; when the delete raises,
the code merely warns and the fields keep their values — so a failed
upload can leave the new handle live in the session. -/

/-- `clean_up_store` on a session holding a handle always issues exactly
the one delete call, whether or not it succeeds. -/
theorem clean_up_store_trace (env : UploadEnv) (t : SessionState) (h : String)
    (hs : t.file_search_store_name = some h) :
    (clean_up_store env t).2 = [UpEvent.deleteFile h] := by
  rw [clean_up_store, hs]
  by_cases hd : env.deleteOk h = true
  · simp [hd]
  · simp [hd]

/-- When the delete succeeds, `clean_up_store` clears both document
fields. -/
theorem clean_up_store_cleared (env : UploadEnv) (t : SessionState) (h : String)
    (hs : t.file_search_store_name = some h) (hd : env.deleteOk h = true) :
    (clean_up_store env t).1.file_search_store_name = none ∧
    (clean_up_store env t).1.file_name = none := by
  rw [clean_up_store, hs]
  simp [hd]

/-- When the delete raises, `clean_up_store` leaves the session
untouched (the `except` branch only warns). -/
theorem clean_up_store_kept (env : UploadEnv) (t : SessionState) (h : String)
    (hs : t.file_search_store_name = some h) (hd : env.deleteOk h = false) :
    (clean_up_store env t).1 = t := by
  rw [clean_up_store, hs]
  simp [hd]

/-- The last element of an append is the last element of its non-empty
right part. -/
theorem getLast?_append_last {α : Type} (l : List α) (r : List α) (a : α)
    (h : r.getLast? = some a) : (l ++ r).getLast? = some a := by
  cases r with
  | nil => cases h
  | cons b t => rw [List.getLast?_append_cons]; exact h

/-- Environment in which every release raises, the upload succeeds, and
the file is observed in state `"FAILED"` at once. -/
def c4_env : UploadEnv :=
  UploadEnv.mk (fun _ => false) true (Except.ok "files/new") "FAILED"
    (fun _ => Except.ok "FAILED") (Except.ok none)

/-- Counterexample to C4: uploading into a fresh session under `c4_env`
ends on the `FAILED` path, yet the session still holds the new handle
as its live document — the release was issued but raised, and the
fields were not cleared. -/
theorem upload_failed_leaves_handle_counterexample :
    (upload_syllabus_to_rag c4_env 5 "new.pdf"
        (SessionState.mk [] none none [] none false false)).2.1 =
      UploadOutcome.stateError "FAILED" ∧
    (upload_syllabus_to_rag c4_env 5 "new.pdf"
        (SessionState.mk [] none none [] none false false)).1.file_search_store_name =
      some "files/new" ∧
    (upload_syllabus_to_rag c4_env 5 "new.pdf"
        (SessionState.mk [] none none [] none false false)).2.2 =
      [UpEvent.uploadFile "new.pdf", UpEvent.deleteFile "files/new"] := by
  refine ⟨rfl, rfl, rfl⟩

/-- C4 (amended): after a successful upload exactly the new handle is
live (both document fields committed).  On every failure path inside the
`try` block — a non-`ACTIVE` terminal state, an exception raised by a
polling `get_file` call, or an exception escaping topic extraction — the
release of the partially created handle is issued as the final external
call, and the session document fields are cleared if and only if that
release call succeeds: when the release itself raises, the handle
remains recorded as live.  An exception during submission triggers the
same release/clear rule for any previously held document; an exception
during temp-file persistence propagates before the `try`, leaving the
session exactly as the initial release left it.  (An exception during
the initial release itself is caught inside `clean_up_store` and never
escapes.) -/
theorem upload_cleanup_amended (env : UploadEnv) (fuel : Nat) (name : String)
    (s : SessionState) :
    (∀ (h : String) (evs : List UpEvent)
        (topics : Option (List (String × List String))),
      env.tempWriteOk = true → env.uploadRes = Except.ok h →
      poll_loop env h env.initState 0 fuel = (PollResult.done "ACTIVE", evs) →
      env.extractRes = Except.ok topics →
      (upload_syllabus_to_rag env fuel name s).1.file_search_store_name = some h ∧
      (upload_syllabus_to_rag env fuel name s).1.file_name = some name ∧
      (upload_syllabus_to_rag env fuel name s).2.1 = UploadOutcome.indexed) ∧
    (∀ (h stname : String) (evs : List UpEvent),
      env.tempWriteOk = true → env.uploadRes = Except.ok h →
      poll_loop env h env.initState 0 fuel = (PollResult.done stname, evs) →
      stname ≠ "ACTIVE" →
      (upload_syllabus_to_rag env fuel name s).2.1 = UploadOutcome.stateError stname ∧
      ((upload_syllabus_to_rag env fuel name s).2.2).getLast? =
        some (UpEvent.deleteFile h) ∧
      (env.deleteOk h = true →
        (upload_syllabus_to_rag env fuel name s).1.file_search_store_name = none ∧
        (upload_syllabus_to_rag env fuel name s).1.file_name = none) ∧
      (env.deleteOk h = false →
        (upload_syllabus_to_rag env fuel name s).1.file_search_store_name = some h ∧
        (upload_syllabus_to_rag env fuel name s).1.file_name = some name)) ∧
    (∀ (h m : String) (evs : List UpEvent),
      env.tempWriteOk = true → env.uploadRes = Except.ok h →
      poll_loop env h env.initState 0 fuel = (PollResult.raised m, evs) →
      (upload_syllabus_to_rag env fuel name s).2.1 = UploadOutcome.caught m ∧
      ((upload_syllabus_to_rag env fuel name s).2.2).getLast? =
        some (UpEvent.deleteFile h) ∧
      (env.deleteOk h = true →
        (upload_syllabus_to_rag env fuel name s).1.file_search_store_name = none ∧
        (upload_syllabus_to_rag env fuel name s).1.file_name = none) ∧
      (env.deleteOk h = false →
        (upload_syllabus_to_rag env fuel name s).1.file_search_store_name = some h ∧
        (upload_syllabus_to_rag env fuel name s).1.file_name = some name)) ∧
    (∀ (h m : String) (evs : List UpEvent),
      env.tempWriteOk = true → env.uploadRes = Except.ok h →
      poll_loop env h env.initState 0 fuel = (PollResult.done "ACTIVE", evs) →
      env.extractRes = Except.error m →
      (upload_syllabus_to_rag env fuel name s).2.1 = UploadOutcome.caught m ∧
      ((upload_syllabus_to_rag env fuel name s).2.2).getLast? =
        some (UpEvent.deleteFile h) ∧
      (env.deleteOk h = true →
        (upload_syllabus_to_rag env fuel name s).1.file_search_store_name = none ∧
        (upload_syllabus_to_rag env fuel name s).1.file_name = none) ∧
      (env.deleteOk h = false →
        (upload_syllabus_to_rag env fuel name s).1.file_search_store_name = some h ∧
        (upload_syllabus_to_rag env fuel name s).1.file_name = some name)) ∧
    (∀ m : String,
      env.tempWriteOk = true → env.uploadRes = Except.error m →
      (upload_syllabus_to_rag env fuel name s).2.1 = UploadOutcome.caught m ∧
      (s.file_search_store_name = none →
        (upload_syllabus_to_rag env fuel name s).1.file_search_store_name = none) ∧
      (∀ old : String, s.file_search_store_name = some old → env.deleteOk old = true →
        (upload_syllabus_to_rag env fuel name s).1.file_search_store_name = none) ∧
      (∀ old : String, s.file_search_store_name = some old → env.deleteOk old = false →
        (upload_syllabus_to_rag env fuel name s).1.file_search_store_name = some old ∧
        ((upload_syllabus_to_rag env fuel name s).2.2).getLast? =
          some (UpEvent.deleteFile old))) ∧
    (env.tempWriteOk = false →
      (upload_syllabus_to_rag env fuel name s).2.1 = UploadOutcome.tempError ∧
      (upload_syllabus_to_rag env fuel name s).1 = (clean_up_store env s).1) := by
  refine ⟨?_, ?_, ?_, ?_, ?_, ?_⟩
  · intro h evs topics htmp hup hpoll hex
    refine ⟨?_, ?_, ?_⟩ <;> simp [upload_syllabus_to_rag, htmp, hup, hpoll, hex]
  · intro h stname evs htmp hup hpoll hact
    have hshape : upload_syllabus_to_rag env fuel name s =
        ((clean_up_store env { (clean_up_store env s).1 with
            file_search_store_name := some h, file_name := some name }).1,
          UploadOutcome.stateError stname,
          ((clean_up_store env s).2 ++ [UpEvent.uploadFile name] ++ evs) ++
            (clean_up_store env { (clean_up_store env s).1 with
              file_search_store_name := some h, file_name := some name }).2) := by
      simp [upload_syllabus_to_rag, htmp, hup, hpoll, hact]
    refine ⟨by rw [hshape], ?_, ?_, ?_⟩
    · rw [hshape]
      exact getLast?_append_last _ _ _ (by rw [clean_up_store_trace env _ h rfl]; simp)
    · intro hdel
      rw [hshape]
      exact clean_up_store_cleared env _ h rfl hdel
    · intro hdel
      rw [hshape, clean_up_store_kept env _ h rfl hdel]
      exact ⟨rfl, rfl⟩
  · intro h m evs htmp hup hpoll
    have hshape : upload_syllabus_to_rag env fuel name s =
        ((clean_up_store env { (clean_up_store env s).1 with
            file_search_store_name := some h, file_name := some name }).1,
          UploadOutcome.caught m,
          ((clean_up_store env s).2 ++ [UpEvent.uploadFile name] ++ evs) ++
            (clean_up_store env { (clean_up_store env s).1 with
              file_search_store_name := some h, file_name := some name }).2) := by
      simp [upload_syllabus_to_rag, htmp, hup, hpoll]
    refine ⟨by rw [hshape], ?_, ?_, ?_⟩
    · rw [hshape]
      exact getLast?_append_last _ _ _ (by rw [clean_up_store_trace env _ h rfl]; simp)
    · intro hdel
      rw [hshape]
      exact clean_up_store_cleared env _ h rfl hdel
    · intro hdel
      rw [hshape, clean_up_store_kept env _ h rfl hdel]
      exact ⟨rfl, rfl⟩
  · intro h m evs htmp hup hpoll hex
    have hshape : upload_syllabus_to_rag env fuel name s =
        ((clean_up_store env { (clean_up_store env s).1 with
            file_search_store_name := some h, file_name := some name }).1,
          UploadOutcome.caught m,
          ((clean_up_store env s).2 ++ [UpEvent.uploadFile name] ++ evs) ++
            (clean_up_store env { (clean_up_store env s).1 with
              file_search_store_name := some h, file_name := some name }).2) := by
      simp [upload_syllabus_to_rag, htmp, hup, hpoll, hex]
    refine ⟨by rw [hshape], ?_, ?_, ?_⟩
    · rw [hshape]
      exact getLast?_append_last _ _ _ (by rw [clean_up_store_trace env _ h rfl]; simp)
    · intro hdel
      rw [hshape]
      exact clean_up_store_cleared env _ h rfl hdel
    · intro hdel
      rw [hshape, clean_up_store_kept env _ h rfl hdel]
      exact ⟨rfl, rfl⟩
  · intro m htmp hup
    refine ⟨by simp [upload_syllabus_to_rag, htmp, hup], ?_, ?_, ?_⟩
    · intro hs
      simp [upload_syllabus_to_rag, htmp, hup, clean_up_store, hs]
    · intro old hsold hdel
      simp [upload_syllabus_to_rag, htmp, hup, clean_up_store, hsold, hdel]
    · intro old hsold hdel
      constructor
      · simp [upload_syllabus_to_rag, htmp, hup, clean_up_store, hsold, hdel]
      · simp [upload_syllabus_to_rag, htmp, hup, clean_up_store, hsold, hdel]
  · intro htmp
    exact ⟨by simp [upload_syllabus_to_rag, htmp], by simp [upload_syllabus_to_rag, htmp]⟩

/-- Witness for C4 (amended): with a succeeding release the `FAILED`
path clears both document fields and ends in the release call; with a
raising release, a polling `get_file` exception leaves the new handle
live, the release still being the final issued call. -/
theorem upload_cleanup_amended_witness :
    poll_loop
        (UploadEnv.mk (fun _ => true) true (Except.ok "files/w4") "FAILED"
          (fun _ => Except.ok "FAILED") (Except.ok none)) "files/w4" "FAILED" 0 5 =
      (PollResult.done "FAILED", []) ∧
    (upload_syllabus_to_rag
        (UploadEnv.mk (fun _ => true) true (Except.ok "files/w4") "FAILED"
          (fun _ => Except.ok "FAILED") (Except.ok none)) 5 "w4.pdf"
        (SessionState.mk [] none none [] none false false)).1.file_search_store_name =
      none ∧
    (upload_syllabus_to_rag
        (UploadEnv.mk (fun _ => true) true (Except.ok "files/w4") "FAILED"
          (fun _ => Except.ok "FAILED") (Except.ok none)) 5 "w4.pdf"
        (SessionState.mk [] none none [] none false false)).2.1 =
      UploadOutcome.stateError "FAILED" ∧
    poll_loop
        (UploadEnv.mk (fun _ => false) true (Except.ok "files/w5") "PROCESSING"
          (fun _ => Except.error "ECONNRESET") (Except.ok none)) "files/w5"
        "PROCESSING" 0 5 =
      (PollResult.raised "ECONNRESET", [UpEvent.getFile "files/w5"]) ∧
    (upload_syllabus_to_rag
        (UploadEnv.mk (fun _ => false) true (Except.ok "files/w5") "PROCESSING"
          (fun _ => Except.error "ECONNRESET") (Except.ok none)) 5 "w5.pdf"
        (SessionState.mk [] none none [] none false false)).2.1 =
      UploadOutcome.caught "ECONNRESET" ∧
    (upload_syllabus_to_rag
        (UploadEnv.mk (fun _ => false) true (Except.ok "files/w5") "PROCESSING"
          (fun _ => Except.error "ECONNRESET") (Except.ok none)) 5 "w5.pdf"
        (SessionState.mk [] none none [] none false false)).1.file_search_store_name =
      some "files/w5" ∧
    ((upload_syllabus_to_rag
        (UploadEnv.mk (fun _ => false) true (Except.ok "files/w5") "PROCESSING"
          (fun _ => Except.error "ECONNRESET") (Except.ok none)) 5 "w5.pdf"
        (SessionState.mk [] none none [] none false false)).2.2).getLast? =
      some (UpEvent.deleteFile "files/w5") := by
  have h4 := (upload_cleanup_amended
    (UploadEnv.mk (fun _ => true) true (Except.ok "files/w4") "FAILED"
      (fun _ => Except.ok "FAILED") (Except.ok none)) 5 "w4.pdf"
    (SessionState.mk [] none none [] none false false)).2.1
    "files/w4" "FAILED" [] rfl rfl rfl (by decide)
  have h5 := (upload_cleanup_amended
    (UploadEnv.mk (fun _ => false) true (Except.ok "files/w5") "PROCESSING"
      (fun _ => Except.error "ECONNRESET") (Except.ok none)) 5 "w5.pdf"
    (SessionState.mk [] none none [] none false false)).2.2.1
    "files/w5" "ECONNRESET" [UpEvent.getFile "files/w5"] rfl rfl rfl
  exact ⟨rfl, (h4.2.2.1 rfl).1, h4.1, rfl, h5.1, (h5.2.2.2 rfl).1, h5.2.1⟩

/-! ## Claim C5 — release before re-submission; history after re-index

The release-before-submit half holds: the initial `clean_up_store`
issues the delete of the old handle before `upload_file` runs.  The
history half fails as stated: line 112 resets the history but line 113
immediately appends the assistant greeting, so the history immediately
after a successful re-index is the one-element greeting, not empty. -/

/-- Environment of a fully successful upload (release succeeds, the
file is first observed `PROCESSING`, then one `get_file` call returns
`ACTIVE`). -/
def c5_env : UploadEnv :=
  UploadEnv.mk (fun _ => true) true (Except.ok "files/new") "PROCESSING"
    (fun _ => Except.ok "ACTIVE") (Except.ok none)

/-- A session holding an indexed document and a two-message history. -/
def c5_state : SessionState :=
  SessionState.mk [("user", "q1"), ("assistant", "a1")] (some "files/old")
    (some "old.pdf") [] none false false

/-- Counterexample to C5: a successful re-index over `c5_state` ends
with a non-empty history — it holds exactly the assistant greeting. -/
theorem reindex_history_counterexample :
    (upload_syllabus_to_rag c5_env 5 "new.pdf" c5_state).2.1 = UploadOutcome.indexed ∧
    (upload_syllabus_to_rag c5_env 5 "new.pdf" c5_state).1.chat_history ≠ [] ∧
    (upload_syllabus_to_rag c5_env 5 "new.pdf" c5_state).1.chat_history =
      [("assistant", success_greeting "new.pdf")] := by
  refine ⟨rfl, by decide, rfl⟩

/-- C5 (amended): for a session already holding an indexed document, the
first external call of the upload flow is the release of the old handle
— in particular it precedes the submission of the new file; and
immediately after a successful re-index the history contains no user
message: it is exactly the single assistant greeting. -/
theorem reindex_release_amended (env : UploadEnv) (fuel : Nat) (name : String)
    (s : SessionState) (old : String)
    (hold : s.file_search_store_name = some old) :
    ((upload_syllabus_to_rag env fuel name s).2.2).head? =
      some (UpEvent.deleteFile old) ∧
    (∀ (h : String) (evs : List UpEvent)
        (topics : Option (List (String × List String))),
      env.tempWriteOk = true → env.uploadRes = Except.ok h →
      poll_loop env h env.initState 0 fuel = (PollResult.done "ACTIVE", evs) →
      env.extractRes = Except.ok topics →
      (upload_syllabus_to_rag env fuel name s).1.chat_history =
        [("assistant", success_greeting name)] ∧
      user_message_count (upload_syllabus_to_rag env fuel name s).1.chat_history = 0) := by
  have hev : (clean_up_store env s).2 = [UpEvent.deleteFile old] :=
    clean_up_store_trace env s old hold
  constructor
  · rw [upload_syllabus_to_rag]
    cases htmp : env.tempWriteOk with
    | false => simp [hev]
    | true =>
      cases hup : env.uploadRes with
      | error m => simp [hev]
      | ok handle =>
        cases hpoll : (poll_loop env handle env.initState 0 fuel).1 with
        | fuelOut => simp [hev, hpoll]
        | raised m => simp [hev, hpoll]
        | done stname =>
          by_cases hact : stname = "ACTIVE"
          · subst hact
            cases hex : env.extractRes with
            | ok topics => simp [hev, hpoll, hex]
            | error m => simp [hev, hpoll, hex]
          · simp [hev, hpoll, hact]
  · intro h evs topics htmp hup hpoll hex
    constructor
    · simp [upload_syllabus_to_rag, htmp, hup, hpoll, hex]
    · simp [upload_syllabus_to_rag, htmp, hup, hpoll, hex, user_message_count]

/-- Witness for C5 (amended): over `c5_state`, the trace of a successful
re-index starts with the release of `"files/old"`, and the resulting
history is the single greeting, containing zero user messages. -/
theorem reindex_release_amended_witness :
    c5_state.file_search_store_name = some "files/old" ∧
    ((upload_syllabus_to_rag c5_env 5 "new.pdf" c5_state).2.2).head? =
      some (UpEvent.deleteFile "files/old") ∧
    user_message_count
      (upload_syllabus_to_rag c5_env 5 "new.pdf" c5_state).1.chat_history = 0 := by
  refine ⟨rfl, (reindex_release_amended c5_env 5 "new.pdf" c5_state "files/old" rfl).1, ?_⟩
  exact ((reindex_release_amended c5_env 5 "new.pdf" c5_state "files/old" rfl).2
    "files/new" [UpEvent.getFile "files/new"] none rfl rfl rfl rfl).2

/-! ## Claim C6 — topic extraction examples and failure handling

The two examples hold, and the handled failure conditions (JSON decode
failure; an object without a `"topics"` key; an object whose `"topics"`
value is not a list) yield no outline without raising.  But the
blanket "never aborts the upload flow" fails: `"topics" in data` raises
`TypeError` when the parsed output is not a container (e.g. the JSON
number `5`), the `except` clause at line 300 only catches
`json.JSONDecodeError`, and the exception escapes into the upload
`try`-block, aborting the upload. -/

/-- If a key-value list has an entry for `"topics"`, the `any` scan of
the membership test finds it. -/
theorem lookup_topics_any (fs : List (String × JsonV)) (v : JsonV)
    (h : List.lookup "topics" fs = some v) :
    fs.any (fun p => p.1 = "topics") = true := by
  induction fs with
  | nil => cases h
  | cons p ps ih =>
    rw [List.lookup] at h
    cases hk : ("topics" == p.1) with
    | true =>
      have heq : p.1 = "topics" := (eq_of_beq hk).symm
      simp [heq]
    | false =>
      rw [hk] at h
      simp [ih h]

/-- The parsed output `{"topics": [{"topic": "Page 3", "subtopics": []}]}`. -/
def c6_page_data : JsonV :=
  JsonV.obj [("topics", JsonV.arr
    [JsonV.obj [("topic", JsonV.str "Page 3"), ("subtopics", JsonV.arr [])]])]

/-- The parsed output
`{"topics": [{"topic": "Matrices", "subtopics": ["x=1", "Determinants"]}]}`. -/
def c6_matrices_data : JsonV :=
  JsonV.obj [("topics", JsonV.arr
    [JsonV.obj [("topic", JsonV.str "Matrices"),
      ("subtopics", JsonV.arr [JsonV.str "x=1", JsonV.str "Determinants"])]])]

/-- Counterexample to C6: when the model response parses to the JSON
number `5`, the membership test `"topics" in data` raises `TypeError`;
the exception is not caught (only `json.JSONDecodeError` is), so topic
extraction raises instead of yielding no outline — and the exception
escapes into the upload flow's `try` block. -/
theorem topic_extraction_raise_counterexample :
    extract_topics_from_syllabus (fun _ => Except.ok (JsonV.num 5)) "5" =
      Except.error "TypeError: argument is not iterable" ∧
    process_topics (JsonV.num 5) =
      Except.error "TypeError: argument is not iterable" := by
  refine ⟨rfl, rfl⟩

/-- C6 (amended): the `"Page 3"` example is filtered down to zero topics
(the stored outline is `none`); the `"Matrices"` example yields exactly
one topic with the single subtopic `"Determinants"`; a JSON decode
failure, an object without a `"topics"` key, and an object whose
`"topics"` value is not a sequence each yield no outline without
raising.  (A non-container parsed output instead raises a `TypeError`
that escapes into the upload flow — see the counterexample.) -/
theorem topic_extraction_amended (parse : String → Except String JsonV) :
    process_topics c6_page_data = Except.ok none ∧
    process_topics c6_matrices_data =
      Except.ok (some [("Matrices", ["Determinants"])]) ∧
    (∀ resp e, parse (strip_json_str resp) = Except.error e →
      extract_topics_from_syllabus parse resp = Except.ok none) ∧
    (∀ fs : List (String × JsonV), (∀ p ∈ fs, p.1 ≠ "topics") →
      process_topics (JsonV.obj fs) = Except.ok none) ∧
    (∀ (fs : List (String × JsonV)) (v : JsonV),
      List.lookup "topics" fs = some v → (∀ xs, v ≠ JsonV.arr xs) →
      process_topics (JsonV.obj fs) = Except.ok none) := by
  refine ⟨rfl, rfl, ?_, ?_, ?_⟩
  · intro resp e hp
    rw [extract_topics_from_syllabus]
    by_cases hacc : caller_accepts resp = true
    · simp [hacc, hp]
    · simp [hacc]
  · intro fs hno
    have hany : fs.any (fun p => p.1 = "topics") = false := by
      rw [List.any_eq_false]
      intro p hp
      simpa using hno p hp
    simp only [process_topics, py_contains_topics, hany]
    rfl
  · intro fs v hv hnarr
    have hany : fs.any (fun p => p.1 = "topics") = true := lookup_topics_any fs v hv
    rw [process_topics]
    simp only [py_contains_topics, hany, py_index_topics, hv]
    cases v with
    | arr xs => exact absurd rfl (hnarr xs)
    | str s => rfl
    | num n => rfl
    | bool b => rfl
    | null => rfl
    | obj gs => rfl

/-- Witness for C6 (amended): a decode failure on a plausible response
yields no outline and no exception. -/
theorem topic_extraction_amended_witness :
    (fun _ : String => (Except.error "Expecting value" : Except String JsonV))
        (strip_json_str "not json at all") = Except.error "Expecting value" ∧
    extract_topics_from_syllabus
        (fun _ => (Except.error "Expecting value" : Except String JsonV))
        "not json at all" = Except.ok none :=
  ⟨rfl,
    (topic_extraction_amended
        (fun _ => (Except.error "Expecting value" : Except String JsonV))).2.2.1
      "not json at all" "Expecting value" rfl⟩

/-! ## Claim C9 — credential pool load

Deduplicated merging and the missing-source behaviour hold.  The
ordering conjunct fails: the code iterates a Python `set` (hash-based,
order unspecified) in the final comprehension, so "first loaded tried
first" is not guaranteed by the code. -/

/-- Membership after a set insertion. -/
theorem setAdd_mem (s : List String) (x y : String) :
    y ∈ setAdd s x ↔ y ∈ s ∨ y = x := by
  rw [setAdd]
  by_cases h : x ∈ s
  · rw [if_pos h]
    constructor
    · exact Or.inl
    · rintro (hy | rfl)
      · exact hy
      · exact h
  · rw [if_neg h]
    simp

/-- A set insertion keeps the tracking list duplicate-free. -/
theorem setAdd_nodup (s : List String) (x : String) (h : s.Nodup) :
    (setAdd s x).Nodup := by
  rw [setAdd]
  by_cases hx : x ∈ s
  · rwa [if_pos hx]
  · rw [if_neg hx]
    simpa [List.nodup_append] using ⟨h, hx⟩

/-- Membership of the fold of set insertions. -/
theorem foldl_setAdd_mem (l : List String) :
    ∀ (acc : List String) (y : String),
      y ∈ l.foldl setAdd acc ↔ y ∈ acc ∨ y ∈ l := by
  induction l with
  | nil => simp
  | cons x xs ih =>
    intro acc y
    rw [List.foldl_cons, ih, setAdd_mem]
    constructor
    · rintro ((hy | rfl) | hy)
      · exact Or.inl hy
      · simp
      · simp [hy]
    · rintro (hy | hy)
      · exact Or.inl (Or.inl hy)
      · rcases List.mem_cons.mp hy with rfl | hy
        · exact Or.inl (Or.inr rfl)
        · exact Or.inr hy

/-- The fold of set insertions keeps the tracking list duplicate-free. -/
theorem foldl_setAdd_nodup (l : List String) :
    ∀ acc : List String, acc.Nodup → (l.foldl setAdd acc).Nodup := by
  induction l with
  | nil => intro acc h; simpa using h
  | cons x xs ih =>
    intro acc h
    exact ih (setAdd acc x) (setAdd_nodup acc x h)

/-- The tracked membership of the `keys` set is duplicate-free. -/
theorem key_set_nodup (env : KeyEnv) : (key_set env).Nodup :=
  foldl_setAdd_nodup (key_inserts env) [] List.nodup_nil

/-- A key environment exhibiting the ordering failure: both secrets
slots are present and the set iterates in reversed insertion order (a
permutation, as any set iteration order is). -/
def c9_env : KeyEnv :=
  KeyEnv.mk (some [("GEMINI_API_KEY_1", "A"), ("GEMINI_API_KEY_2", "B")])
    (fun _ => none) List.reverse

/-- Counterexample to C9: under `c9_env` the credentials are inserted in
the order `A`, `B`, the iteration order is a permutation of the set's
members, yet `get_api_keys` returns `["B", "A"]` — the first-loaded
credential `A` is not tried first. -/
theorem api_keys_order_counterexample :
    key_set c9_env = ["A", "B"] ∧
    (c9_env.setOrder (key_set c9_env)).Perm (key_set c9_env) ∧
    get_api_keys c9_env = ["B", "A"] := by
  refine ⟨rfl, by decide, rfl⟩

/-- C9 (amended): under any set iteration order (any permutation of the
members), `get_api_keys` returns a duplicate-free list whose members are
exactly the non-empty loaded credentials, and sources that are missing
or unavailable contribute zero credentials (both missing yields the
empty pool) — but the order of the result is the unspecified set
iteration order, so no first-loaded-first guarantee exists. -/
theorem api_keys_pool_amended (env : KeyEnv)
    (hperm : (env.setOrder (key_set env)).Perm (key_set env)) :
    (get_api_keys env).Nodup ∧
    (∀ k, k ∈ get_api_keys env ↔ k ∈ key_inserts env ∧ k ≠ "") ∧
    (env.secrets = none → (∀ n, env.getenv n = none) → get_api_keys env = []) := by
  refine ⟨?_, ?_, ?_⟩
  · exact List.Nodup.filter _ (hperm.nodup_iff.mpr (key_set_nodup env))
  · intro k
    rw [get_api_keys, List.mem_filter]
    constructor
    · rintro ⟨hm, hk⟩
      have hor := hperm.mem_iff.mp hm
      rw [key_set, foldl_setAdd_mem] at hor
      have h2 : k ∈ key_inserts env := by simpa using hor
      exact ⟨h2, of_decide_eq_true hk⟩
    · rintro ⟨hm, hk⟩
      refine ⟨hperm.mem_iff.mpr ?_, by simpa using hk⟩
      rw [key_set, foldl_setAdd_mem]
      simp [hm]
  · intro hsec hget
    have hins : key_inserts env = [] := by
      rw [key_inserts, hsec, hget "GEMINI_API_KEY_1", hget "GEMINI_API_KEY_2"]
      rfl
    have hks : key_set env = [] := by rw [key_set, hins]; rfl
    have : env.setOrder (key_set env) = [] := by
      rw [hks] at hperm ⊢
      exact List.Perm.eq_nil hperm
    rw [get_api_keys, this]
    rfl

/-- Witness for C9 (amended): under `c9_env` (whose iteration order is a
permutation) the pool is duplicate-free and `"A"` is a member. -/
theorem api_keys_pool_amended_witness :
    (c9_env.setOrder (key_set c9_env)).Perm (key_set c9_env) ∧
    (get_api_keys c9_env).Nodup ∧
    ("A" ∈ get_api_keys c9_env ↔ "A" ∈ key_inserts c9_env ∧ "A" ≠ "") :=
  ⟨by decide, (api_keys_pool_amended c9_env (by decide)).1,
    (api_keys_pool_amended c9_env (by decide)).2.1 "A"⟩

end MathsExplainer
